import Mathlib

/-!
# Verification of pedalboard-pluginary's crash-safe scan orchestrator spec

Shallow embedding of the plugin-catalog code from
`src/pedalboard_pluginary/`: the parameter-value coercion (`utils.py`),
the single-plugin worker (`scan_single.py`), the probe and the parallel
scan loop (`scanner_isolated.py`), JSON (de)serialization
(`serialization.py`, `types.py`, `data.py`) and the SQLite catalog
backend (`cache/sqlite_backend.py`).

Python's dynamically-typed values are modelled by the inductive `PyV`;
Python dicts are association lists in insertion order (first binding
wins on lookup, as a Python dict has unique keys); Python floats are
modelled as rationals (`Rat`), which is exact for every decimal literal
the code manipulates. String helpers are implemented by structural
recursion over character lists so that concrete runs reduce inside the
kernel.
-/

namespace Pluginary

/-- Model of a dynamically-typed Python value (the subset the cached
plugin data can contain): `None`, `bool`, `int`, `float`, `str`,
`dict` (association list in insertion order) and `list`. -/
inductive PyV where
  | pnone : PyV
  | pbool (b : Bool) : PyV
  | pint (n : Int) : PyV
  | pfloat (q : Rat) : PyV
  | pstr (s : String) : PyV
  | pdict (fields : List (String × PyV)) : PyV
  | plist (xs : List PyV) : PyV

/-- `d[k]` / `d.get(k)` on a Python dict modelled as an association
list: first binding for the key, if any. -/
def dictGet (fields : List (String × PyV)) (k : String) : Option PyV :=
  match fields with
  | [] => none
  | (k', v) :: rest => if k' = k then some v else dictGet rest k

/-- `k in d` on a Python dict. -/
def dictHas (fields : List (String × PyV)) (k : String) : Bool :=
  (dictGet fields k).isSome

/-- Split a character list at every occurrence of `sep`
(`str.split(sep)` semantics: the empty input gives one empty group). -/
def splitOnChar (sep : Char) : List Char → List (List Char)
  | [] => [[]]
  | c :: rest =>
      let r := splitOnChar sep rest
      if c = sep then [] :: r
      else
        match r with
        | [] => [[c]]
        | g :: gs => (c :: g) :: gs

/-- ASCII lower-casing of one character (model of `str.lower()` on the
ASCII range; the code only compares against `"true"`/`"false"`). -/
def asciiLower (c : Char) : Char :=
  if 'A' ≤ c ∧ c ≤ 'Z' then Char.ofNat (c.toNat + 32) else c

/-- `str.lower()` (ASCII model). -/
def strLower (s : String) : String :=
  ⟨s.toList.map asciiLower⟩

/-- `str.strip()`: drop whitespace at both ends. -/
def trimChars (cs : List Char) : List Char :=
  ((cs.dropWhile Char.isWhitespace).reverse.dropWhile Char.isWhitespace).reverse

/-- `PurePath.name`: the final path component (text after the last
slash). POSIX separators only, as in the repository's own test paths. -/
def pathName (p : String) : String :=
  match (splitOnChar '/' p.toList).getLast? with
  | some n => ⟨n⟩
  | none => p

/-- Index after which the last `.` of `name` sits, provided it is not
the leading character (Python treats a lone leading dot as a
hidden-file marker, not a suffix separator). -/
def lastDotIdx (cs : List Char) : Option Nat :=
  let rec go (cs : List Char) (i : Nat) (acc : Option Nat) : Option Nat :=
    match cs with
    | [] => acc
    | c :: rest => go rest (i + 1) (if c = '.' ∧ i ≠ 0 then some i else acc)
  go cs 0 none

/-- `PurePath.stem`: final component without its last suffix
(`Path("/p/a.vst3").stem == "a"`, `Path(".bashrc").stem == ".bashrc"`). -/
def pathStem (p : String) : String :=
  let n := (pathName p).toList
  match lastDotIdx n with
  | some i => ⟨n.take i⟩
  | none => ⟨n⟩

/-- `str.endswith(suffix)`. -/
def strEndsWith (s suffix : String) : Bool :=
  List.isSuffixOf suffix.toList s.toList

/-- Digits of a numeral as a natural number; that the characters are
digits is checked separately by the caller. -/
def digitsVal (cs : List Char) : Nat :=
  cs.foldl (fun a c => a * 10 + (c.toNat - 48)) 0

/-- Whether `cs` is a non-empty run of ASCII digits. -/
def isDigits (cs : List Char) : Bool :=
  !cs.isEmpty && cs.all Char.isDigit

/-- Model of Python's builtin `float(str)` on the usual decimal grammar
`[ws] [sign] (digits [. digits] | [digits] . digits) [e [sign] digits] [ws]`
(case-insensitive `e`), returning the exact rational value. The special
forms `inf`/`nan` and digit-group underscores are outside the model; no
claim depends on them. -/
def pyFloatParse (s : String) : Option Rat :=
  let t := (trimChars s.toList).map asciiLower
  let (sign, body) : Int × List Char :=
    match t with
    | '+' :: rest => (1, rest)
    | '-' :: rest => (-1, rest)
    | cs => (1, cs)
  let parseMant : List Char → Option (Nat × Nat) := fun m =>
    match splitOnChar '.' m with
    | [d] => if isDigits d then some (digitsVal d, 0) else none
    | [i, f] =>
        if i.isEmpty && f.isEmpty then none
        else if (i.isEmpty || isDigits i) && (f.isEmpty || isDigits f) then
          some (digitsVal i * 10 ^ f.length + digitsVal f, f.length)
        else none
    | _ => none
  let parseExp : List Char → Option Int := fun e =>
    match e with
    | '+' :: d => if isDigits d then some (digitsVal d : Int) else none
    | '-' :: d => if isDigits d then some (-(digitsVal d : Int)) else none
    | d => if isDigits d then some (digitsVal d : Int) else none
  let build : Nat × Nat → Int → Rat := fun (val, scale) ex =>
    let e10 : Int := ex - (scale : Int)
    if 0 ≤ e10 then ((sign * (val : Int) * ((10 ^ e10.toNat : Nat) : Int) : Int) : Rat)
    else ((sign * (val : Int) : Int) : Rat) / ((10 ^ (-e10).toNat : Nat) : Rat)
  match splitOnChar 'e' body with
  | [m] =>
      match parseMant m with
      | some mv => some (build mv 0)
      | none => none
  | [m, e] =>
      match parseMant m, parseExp e with
      | some mv, some ex => some (build mv ex)
      | _, _ => none
  | _ => none

/-- Result type of `from_pb_param` (`utils.py` lines 8-22): exactly one
of float, bool or string. -/
inductive PbParam where
  | f (q : Rat) : PbParam
  | b (bo : Bool) : PbParam
  | s (st : String) : PbParam
deriving DecidableEq, Repr

/-- `utils.from_pb_param` applied to `drep = str(data)`: try
`float(drep)` first, then compare `drep.lower()` with `"true"` /
`"false"`, else keep the string. -/
def from_pb_param (drep : String) : PbParam :=
  match pyFloatParse drep with
  | some q => .f q
  | none =>
      if strLower drep = "true" then .b true
      else if strLower drep = "false" then .b false
      else .s drep

/-- A raw parameter value as handed to the worker by the loader
(`getattr(plugin, key)` in `scan_single.py`): a native `bool`, `int`,
`float` or `str`, or any other object carrying its `str(...)` text. -/
inductive LoaderVal where
  | lbool (b : Bool) : LoaderVal
  | lint (n : Int) : LoaderVal
  | lfloat (q : Rat) : LoaderVal
  | lstr (s : String) : LoaderVal
  | lother (srep : String) : LoaderVal
deriving DecidableEq, Repr

/-- The value the worker stores for a parameter (`scan_single.py` lines
80-85): `bool`/`int`/`float`/`str` values kept unchanged, every other
object replaced by its `str(...)` text. -/
def scanSingleParamValue : LoaderVal → PyV
  | .lbool b => .pbool b
  | .lint n => .pint n
  | .lfloat q => .pfloat q
  | .lstr s => .pstr s
  | .lother r => .pstr r

end Pluginary

namespace Pluginary

/-- `types.is_parameter_value`: `isinstance(value, (float, bool, str))`
(note: a Python `int` is none of these). -/
def is_parameter_value (v : PyV) : Bool :=
  match v with
  | .pfloat _ => true
  | .pbool _ => true
  | .pstr _ => true
  | _ => false

/-- `models.PluginParameter`: a scanned parameter, `name` plus the
stored (already coerced) value. -/
structure PluginParameter where
  name : String
  value : PyV

/-- `models.PluginInfo`: one catalog record. `path` is kept as a
string (`__post_init__` coerces `Path` to `str`); `parameters` is the
dict from parameter name to `PluginParameter` in insertion order. -/
structure PluginInfo where
  id : String
  name : String
  path : String
  filename : String
  plugin_type : String
  parameters : List (String × PluginParameter)
  manufacturer : Option String
  name_in_file : Option String

/-- `PluginSerializer.parameter_to_dict`. -/
def parameter_to_dict (p : PluginParameter) : PyV :=
  .pdict [("name", .pstr p.name), ("value", p.value)]

/-- `types.is_serialized_parameter`. -/
def is_serialized_parameter (v : PyV) : Bool :=
  match v with
  | .pdict fs =>
      dictHas fs "name" && dictHas fs "value" &&
      (match dictGet fs "name" with | some (.pstr _) => true | _ => false) &&
      (match dictGet fs "value" with | some w => is_parameter_value w | none => false)
  | _ => false

/-- `PluginSerializer.dict_to_parameter`: validate with
`is_serialized_parameter`, then rebuild the parameter. -/
def dict_to_parameter (v : PyV) : Option PluginParameter :=
  if is_serialized_parameter v then
    match v with
    | .pdict fs =>
        match dictGet fs "name", dictGet fs "value" with
        | some (.pstr n), some w => some ⟨n, w⟩
        | _, _ => none
    | _ => none
  else none

/-- `PluginSerializer.plugin_to_dict`: required fields in order, then
`manufacturer` and `name_in_file` only when they are not `None`. -/
def plugin_to_dict (p : PluginInfo) : PyV :=
  .pdict
    ([("id", .pstr p.id), ("name", .pstr p.name), ("path", .pstr p.path),
      ("filename", .pstr p.filename), ("plugin_type", .pstr p.plugin_type),
      ("parameters", .pdict (p.parameters.map (fun kv => (kv.1, parameter_to_dict kv.2))))]
     ++ (match p.manufacturer with
         | some m => [("manufacturer", .pstr m)]
         | none => [])
     ++ (match p.name_in_file with
         | some n => [("name_in_file", .pstr n)]
         | none => []))

/-- `types.is_serialized_plugin`: required string fields, a dict of
valid parameters, and optional `manufacturer` / `name_in_file` that
must be strings when present and not `None`. -/
def is_serialized_plugin (v : PyV) : Bool :=
  match v with
  | .pdict fs =>
      (["id", "name", "path", "filename", "plugin_type", "parameters"].all
        (fun k => dictHas fs k)) &&
      (["id", "name", "path", "filename", "plugin_type"].all
        (fun k => match dictGet fs k with | some (.pstr _) => true | _ => false)) &&
      (match dictGet fs "parameters" with
       | some (.pdict ps) => ps.all (fun kv => is_serialized_parameter kv.2)
       | _ => false) &&
      (match dictGet fs "manufacturer" with
       | some .pnone => true
       | some (.pstr _) => true
       | some _ => false
       | none => true) &&
      (match dictGet fs "name_in_file" with
       | some .pnone => true
       | some (.pstr _) => true
       | some _ => false
       | none => true)
  | _ => false

/-- Field extraction helper: `data[k]` when the value is a string. -/
def dictGetStr (fs : List (String × PyV)) (k : String) : Option String :=
  match dictGet fs k with
  | some (.pstr s) => some s
  | _ => none

/-- `PluginSerializer.dict_to_plugin`: validate with
`is_serialized_plugin`, rebuild the record; parameters whose dict fails
validation are silently dropped (`if param:`), and absent or `None`
optional fields become `None`. -/
def dict_to_plugin (v : PyV) : Option PluginInfo :=
  if is_serialized_plugin v then
    match v with
    | .pdict fs =>
        match dictGetStr fs "id", dictGetStr fs "name", dictGetStr fs "path",
              dictGetStr fs "filename", dictGetStr fs "plugin_type" with
        | some i, some nm, some pa, some fn, some pt =>
            let params :=
              match dictGet fs "parameters" with
              | some (.pdict ps) =>
                  ps.filterMap (fun kv => (dict_to_parameter kv.2).map (fun p => (kv.1, p)))
              | _ => []
            some
              { id := i, name := nm, path := pa, filename := fn, plugin_type := pt,
                parameters := params,
                manufacturer := dictGetStr fs "manufacturer",
                name_in_file := dictGetStr fs "name_in_file" }
        | _, _, _, _, _ => none
    | _ => none
  else none

/-- A sample record used by concrete witnesses: one float-valued and one
bool-valued parameter, a manufacturer and a `name_in_file`. -/
def samplePlugin : PluginInfo :=
  { id := "vst3/TestPlugin", name := "TestPlugin", path := "/t/TestPlugin.vst3",
    filename := "TestPlugin.vst3", plugin_type := "vst3",
    parameters := [("Volume", ⟨"Volume", .pfloat 1⟩), ("Bypass", ⟨"Bypass", .pbool false⟩)],
    manufacturer := some "TestManufacturer", name_in_file := some "TestPlugin" }

/-- State of a JSON file on disk: absent, unparseable, or parsed
content. -/
inductive JsonFile where
  | missing : JsonFile
  | corrupt : JsonFile
  | content (v : PyV) : JsonFile

/-- `data.load_json_file` (lines 41-60) on a file that is not the
plugins cache (the branch `ignores.json` takes): a missing or corrupt
file and any non-dict non-list payload give `{}`; a dict or a list is
returned as parsed. -/
def load_json_file_other (f : JsonFile) : PyV :=
  match f with
  | .missing => .pdict []
  | .corrupt => .pdict []
  | .content v =>
      match v with
      | .pdict fs => .pdict fs
      | .plist xs => .plist xs
      | _ => .pdict []

/-- `data.load_ignores` (lines 115-120): load the JSON, keep only the
string elements of a list payload, return them as a set. -/
def load_ignores (f : JsonFile) : Finset String :=
  match load_json_file_other f with
  | .plist xs =>
      (xs.filterMap (fun x => match x with | .pstr s => some s | _ => none)).toFinset
  | _ => ∅

/-- `data.save_ignores` (lines 122-124): write the sorted list of the
set's elements as a JSON array (via `save_json_file`). -/
def save_ignores (ign : Finset String) : JsonFile :=
  .content (.plist ((ign.sort (· ≤ ·)).map PyV.pstr))

/-- A candidate folder for the VST3 probe: its path, whether
`folder.exists()` holds, and the directory entries `folder.glob`
inspects. -/
structure Vst3Folder where
  path : String
  present : Bool
  entries : List String

/-- `IsolatedPedalboardScanner._get_vst3_folders` (scanner_isolated.py
lines 191-217): the platform-standard directories plus `extra_folders`
form the input list; only the folders that exist are returned. -/
def get_vst3_folders (folders : List Vst3Folder) : List Vst3Folder :=
  folders.filter (·.present)

/-- `IsolatedPedalboardScanner._find_vst3_plugins` (lines 219-231):
glob `*.vst3` in every existing folder and emit a candidate path only
when its `"vst3/<stem>"` key is not in the ignore set. -/
def find_vst3_plugins (folders : List Vst3Folder) (ignores : Finset String) : List String :=
  (get_vst3_folders folders).flatMap (fun folder =>
    (folder.entries.filter (fun e => strEndsWith e ".vst3")).filterMap (fun e =>
      let plugin_path := folder.path ++ "/" ++ e
      let plugin_key := "vst3/" ++ pathStem plugin_path
      if plugin_key ∈ ignores then none else some plugin_path))

/-- Outcome of running `auval -l`: the tool is missing
(`FileNotFoundError`), exits nonzero (`CalledProcessError`), or
produces output lines. -/
inductive AuvalRun where
  | absent : AuvalRun
  | failed : AuvalRun
  | ok (lines : List String) : AuvalRun

/-- `IsolatedPedalboardScanner._list_aufx_plugins` (lines 157-169):
`auval -l` output lines, or `[]` without error when the tool is
missing or exits nonzero. -/
def list_aufx_plugins (run : AuvalRun) : List String :=
  match run with
  | .ok lines => lines
  | _ => []

/-- A successful match of `RE_AUFX` on one `auval -l` output line. -/
structure AufxMatch where
  pluginCode : String
  vendorCode : String
  vendorName : String
  pluginName : String
  pluginUrl : String

/-- `IsolatedPedalboardScanner._find_aufx_plugins` (lines 171-189),
with the regex match (`RE_AUFX.match`) and the URL resolution
(`unquote`/`urlparse`/`Path.resolve`) supplied as oracles: keep a
matched plugin only when its `"aufx/<stem>"` key is not in the ignore
set. -/
def find_aufx_plugins (matchLine : String → Option AufxMatch)
    (resolvePath : String → String) (run : AuvalRun) (ignores : Finset String) :
    List (String × String × String) :=
  (list_aufx_plugins run).filterMap (fun line =>
    match matchLine line with
    | some m =>
        let plugin_path := resolvePath m.pluginUrl
        let plugin_key := "aufx/" ++ pathStem plugin_path
        if plugin_key ∈ ignores then none
        else some (plugin_path, m.vendorName, m.pluginName)
    | none => none)

/-- Lexicographic comparison of character lists (code-point order, the
order `sorted` uses on strings). -/
def lexLe : List Char → List Char → Bool
  | [], _ => true
  | _ :: _, [] => false
  | a :: as, b :: bs => if a < b then true else if a = b then lexLe as bs else false

/-- String comparison for sorting keys. -/
def strLeB (a b : String) : Bool := lexLe a.toList b.toList

/-- Stable insertion into a key-sorted association list. -/
def insertByKey {α : Type} (x : String × α) : List (String × α) → List (String × α)
  | [] => [x]
  | y :: ys => if strLeB x.1 y.1 then x :: y :: ys else y :: insertByKey x ys

/-- `dict(sorted(d.items()))`: the association list sorted by key. -/
def sortByKey {α : Type} (l : List (String × α)) : List (String × α) :=
  l.foldr insertByKey []

/-- Lookup in an association list (same semantics as `dictGet`, for an
arbitrary value type). -/
def lookupKey {α : Type} (l : List (String × α)) (k : String) : Option α :=
  match l with
  | [] => none
  | (k', v) :: rest => if k' = k then some v else lookupKey rest k

/-- Python dict assignment `d[k] = v`: overwrite in place when the key
exists, else append. -/
def setKey {α : Type} (l : List (String × α)) (k : String) (v : α) : List (String × α) :=
  if (lookupKey l k).isSome then l.map (fun kv => if kv.1 = k then (k, v) else kv)
  else l ++ [(k, v)]

/-- One scan task as submitted to the pool (an entry of
`plugin_tasks`): path, name, type and the probe's optional vendor. -/
structure ScanTask where
  path : String
  name : String
  ptype : String
  vendor : Option String

/-- The parsed JSON dict `scan_plugin_isolated` returns for one task: a
success flag plus optional payload / error fields. An empty
manufacturer string is falsy in `if result.get("manufacturer"):` and is
modelled as `none`. -/
structure IsoResult where
  success : Bool
  params : List (String × PyV)
  manufacturer : Option String
  metadata : Option PyV
  error : Option String

/-- Outcome of `future.result(timeout=1)` in the completion loop: the
worker's parsed dict, or the exception the call raised (its `str`). -/
inductive FutureOutcome where
  | res (r : IsoResult) : FutureOutcome
  | raised (msg : String) : FutureOutcome

/-- Whether an outcome lands in one of the failure branches of the
loop (a result with `success` false, or a raised exception). -/
def FutureOutcome.isFailure : FutureOutcome → Bool
  | .res r => !r.success
  | .raised _ => true

/-- The `plugin_entry` dict built for a successful result
(`scanner_isolated.py` lines 289-307): name, path, filename (the
stem), type and params, then manufacturer (the result's, else the
probe's vendor) and metadata when available. -/
def plugin_entry (t : ScanTask) (r : IsoResult) : PyV :=
  .pdict
    ([("name", .pstr t.name), ("path", .pstr t.path),
      ("filename", .pstr (pathStem t.path)), ("type", .pstr t.ptype),
      ("params", .pdict r.params)]
     ++ (match r.manufacturer with
         | some m => [("manufacturer", .pstr m)]
         | none =>
             match t.vendor with
             | some v => [("manufacturer", .pstr v)]
             | none => [])
     ++ (match r.metadata with
         | some md => [("metadata", md)]
         | none => []))

/-- The record stored in `self.failed_plugins` for a failed task
(lines 311-318 and 320-326). -/
def failed_entry (t : ScanTask) (err : String) : PyV :=
  .pdict [("path", .pstr t.path), ("type", .pstr t.ptype), ("error", .pstr err)]

/-- State of `scan_plugins_parallel`'s completion loop: `self.plugins`
and `self.failed_plugins`, the two local counters, and (as the
observable history of the persistent catalog) every snapshot
`save_plugins` has written to the plugins cache file. -/
structure ScanState where
  plugins : List (String × PyV)
  failed_plugins : List (String × PyV)
  completed : Nat
  failed : Nat
  saves : List (List (String × PyV))

/-- One iteration of the `as_completed` loop (lines 283-337): record
the outcome under the task's name, bump the matching counter, and call
`save_plugins` — which persists `dict(sorted(self.plugins.items()))` —
whenever `(completed + failed) % 10 == 0`. -/
def scan_step (st : ScanState) (task : ScanTask × FutureOutcome) : ScanState :=
  let st' :=
    match task.2 with
    | .res r =>
        if r.success then
          { st with
              plugins := setKey st.plugins task.1.name (plugin_entry task.1 r),
              completed := st.completed + 1 }
        else
          { st with
              failed_plugins := setKey st.failed_plugins task.1.name
                (failed_entry task.1 (r.error.getD "Unknown error")),
              failed := st.failed + 1 }
    | .raised e =>
        { st with
            failed_plugins := setKey st.failed_plugins task.1.name (failed_entry task.1 e),
            failed := st.failed + 1 }
  if (st'.completed + st'.failed) % 10 == 0 then
    { st' with saves := st'.saves ++ [sortByKey st'.plugins] }
  else st'

/-- `IsolatedPedalboardScanner.scan_plugins_parallel` (lines 233-346)
given the pre-existing `self.plugins` / `self.failed_plugins` and the
tasks in the order `as_completed` yields their futures: an empty task
list returns at once; otherwise the completion loop runs over every
task and a final `save_plugins` follows (line 340). -/
def scan_plugins_parallel (plugins0 failed0 : List (String × PyV))
    (tasks : List (ScanTask × FutureOutcome)) : ScanState :=
  if tasks.isEmpty then ⟨plugins0, failed0, 0, 0, []⟩
  else
    let final := tasks.foldl scan_step ⟨plugins0, failed0, 0, 0, []⟩
    { final with saves := final.saves ++ [sortByKey final.plugins] }

/-- Twenty tasks whose workers all succeed: the input of the C1
evaluation. -/
def c1Tasks : List (ScanTask × FutureOutcome) :=
  [(⟨"/p/x0.vst3", "P0", "vst3", none⟩, .res ⟨true, [], none, none, none⟩),
   (⟨"/p/x1.vst3", "P1", "vst3", none⟩, .res ⟨true, [], none, none, none⟩),
   (⟨"/p/x2.vst3", "P2", "vst3", none⟩, .res ⟨true, [], none, none, none⟩),
   (⟨"/p/x3.vst3", "P3", "vst3", none⟩, .res ⟨true, [], none, none, none⟩),
   (⟨"/p/x4.vst3", "P4", "vst3", none⟩, .res ⟨true, [], none, none, none⟩),
   (⟨"/p/x5.vst3", "P5", "vst3", none⟩, .res ⟨true, [], none, none, none⟩),
   (⟨"/p/x6.vst3", "P6", "vst3", none⟩, .res ⟨true, [], none, none, none⟩),
   (⟨"/p/x7.vst3", "P7", "vst3", none⟩, .res ⟨true, [], none, none, none⟩),
   (⟨"/p/x8.vst3", "P8", "vst3", none⟩, .res ⟨true, [], none, none, none⟩),
   (⟨"/p/x9.vst3", "P9", "vst3", none⟩, .res ⟨true, [], none, none, none⟩),
   (⟨"/p/x10.vst3", "P10", "vst3", none⟩, .res ⟨true, [], none, none, none⟩),
   (⟨"/p/x11.vst3", "P11", "vst3", none⟩, .res ⟨true, [], none, none, none⟩),
   (⟨"/p/x12.vst3", "P12", "vst3", none⟩, .res ⟨true, [], none, none, none⟩),
   (⟨"/p/x13.vst3", "P13", "vst3", none⟩, .res ⟨true, [], none, none, none⟩),
   (⟨"/p/x14.vst3", "P14", "vst3", none⟩, .res ⟨true, [], none, none, none⟩),
   (⟨"/p/x15.vst3", "P15", "vst3", none⟩, .res ⟨true, [], none, none, none⟩),
   (⟨"/p/x16.vst3", "P16", "vst3", none⟩, .res ⟨true, [], none, none, none⟩),
   (⟨"/p/x17.vst3", "P17", "vst3", none⟩, .res ⟨true, [], none, none, none⟩),
   (⟨"/p/x18.vst3", "P18", "vst3", none⟩, .res ⟨true, [], none, none, none⟩),
   (⟨"/p/x19.vst3", "P19", "vst3", none⟩, .res ⟨true, [], none, none, none⟩)]

/-- Three tasks — one success, one failure result, one raised
exception — used by the C6 witness. -/
def c6Tasks : List (ScanTask × FutureOutcome) :=
  [(⟨"/p/a.vst3", "A", "vst3", none⟩, .res ⟨true, [], none, none, none⟩),
   (⟨"/p/b.vst3", "B", "vst3", none⟩, .res ⟨false, [], none, none, some "boom"⟩),
   (⟨"/p/c.vst3", "C", "vst3", none⟩, .raised "crash")]

/-- Journal row status (spec §3, `JournalEntry.status`). -/
inductive JStatus where
  | pending : JStatus
  | scanning : JStatus
  | success : JStatus
  | failed : JStatus
  | timeout : JStatus
deriving DecidableEq, Repr

/-- One journal row: the status and the optional serialized result. -/
structure JRow where
  status : JStatus
  result : Option PyV

/-- Modelled from the spec: `ScanJournal` is imported by
`scan_single.py` (and by the tests) from `scanner_isolated.py`, but its
definition is missing from src — only its tests and callers remain.
Per spec §4.D it is a single-file ledger keyed by the plugin path,
with row updates, pending queries and a close operation. -/
structure ScanJournal where
  rows : List (String × JRow)
  closed : Bool

/-- Modelled from the spec: `ScanJournal.update_status(id, status,
result?)` — transactional write of one row; an upsert, as the tests
exercise it on ids that were never added as pending. -/
def ScanJournal.update_status (j : ScanJournal) (id : String) (st : JStatus)
    (result : Option PyV) : ScanJournal :=
  { j with rows := setKey j.rows id ⟨st, result⟩ }

/-- Modelled from the spec: `ScanJournal.get_pending_plugins()` — the
ids whose row status is `pending`. -/
def ScanJournal.get_pending_plugins (j : ScanJournal) : List String :=
  (j.rows.filter (fun kv => kv.2.status = JStatus.pending)).map Prod.fst

/-- Modelled from the spec: `ScanJournal.add_pending(ids)` — insert
each id with status `pending` when absent; existing rows untouched. -/
def ScanJournal.add_pending (j : ScanJournal) (ids : List String) : ScanJournal :=
  { j with rows := ids.foldl (fun rows id =>
      if (lookupKey rows id).isSome then rows
      else rows ++ [(id, ⟨JStatus.pending, none⟩)]) j.rows }

/-- Modelled from the spec: `ScanJournal.close()`. -/
def ScanJournal.close (j : ScanJournal) : ScanJournal :=
  { j with closed := true }

/-- A loaded plugin handle as the worker inspects it: the parameter
keys with the fetched default value (`none` when `getattr` raised and
the parameter is skipped, `scan_single.py` lines 88-90), and the
optional manufacturer string. -/
structure LoadedPlugin where
  params : List (String × Option LoaderVal)
  manufacturer : Option String

/-- Outcome of `pedalboard.load_plugin` and attribute extraction: a
handle, or a raised exception carrying `str(e)`. -/
inductive LoadOutcome where
  | ok (p : LoadedPlugin) : LoadOutcome
  | err (msg : String) : LoadOutcome

/-- Parameter extraction (`scan_single.py` lines 77-90): each
fetchable key becomes `{"name": key, "value": <stored value>}`; keys
whose `getattr` raised are skipped. -/
def extract_parameters (params : List (String × Option LoaderVal)) : List (String × PyV) :=
  params.filterMap (fun kv =>
    kv.2.map (fun v =>
      (kv.1, PyV.pdict [("name", .pstr kv.1), ("value", scanSingleParamValue v)])))

/-- `scan_single.scan_single_plugin` (lines 29-130): mark the row
`scanning` when it is pending, build the result dict with
`id = "<type>/<stem>"`, run the loader; on success write
`status=success` with the record, on any raised exception write
`status=failed` with `{"error": str(e)}`; in both cases close the
journal. The worker process then exits with status 0 (`main` returns
normally), recorded as the second component. -/
def scan_single_plugin (plugin_path plugin_name plugin_type : String)
    (outcome : LoadOutcome) (journal : ScanJournal) : ScanJournal × Nat :=
  let journal_id := plugin_path
  let j1 :=
    if (journal.get_pending_plugins).contains journal_id then
      journal.update_status journal_id .scanning none
    else journal
  let plugin_filename := pathName plugin_path
  let plugin_data_id := plugin_type ++ "/" ++ pathStem plugin_path
  let base : List (String × PyV) :=
    [("id", .pstr plugin_data_id), ("path", .pstr plugin_path),
     ("name", .pstr plugin_name), ("filename", .pstr plugin_filename),
     ("plugin_type", .pstr plugin_type)]
  match outcome with
  | .ok lp =>
      let manufacturer : PyV :=
        match lp.manufacturer with
        | some m => .pstr m
        | none => .pnone
      let result := PyV.pdict (base ++
        [("parameters", .pdict (extract_parameters lp.params)),
         ("manufacturer", manufacturer)])
      ((j1.update_status journal_id .success (some result)).close, 0)
  | .err e =>
      ((j1.update_status journal_id .failed (some (.pdict [("error", .pstr e)]))).close, 0)

/-- The `id` field of a serialized record. -/
def record_id (r : PyV) : Option String :=
  match r with
  | .pdict fs => dictGetStr fs "id"
  | _ => none

/-- Modelled from the spec: the commit step of the journaled
orchestrator (spec §4.F step 4) is absent from src — the tests call it
through `cache_backend.add_plugins` on the journal's success rows.
Per spec §3/§4.E the catalog maps each record's `id` to the record, so
each success row's record is stored under its `id`. -/
def commit_successes (rows : List (String × JRow)) (catalog : List (String × PyV)) :
    List (String × PyV) :=
  rows.foldl (fun cat kv =>
    match kv.2.status, kv.2.result with
    | .success, some r =>
        match record_id r with
        | some i => setKey cat i r
        | none => cat
    | _, _ => cat) catalog

/-- The journal left behind by three workers scanning `/p/a.vst3`,
`/p/b.vst3` and `/p/c.vst3`, all successful. -/
def c8Journal : ScanJournal :=
  (scan_single_plugin "/p/c.vst3" "c" "vst3" (.ok ⟨[], none⟩)
    (scan_single_plugin "/p/b.vst3" "b" "vst3" (.ok ⟨[], none⟩)
      (scan_single_plugin "/p/a.vst3" "a" "vst3" (.ok ⟨[], none⟩) ⟨[], false⟩).1).1).1

/-- `constants.CACHE_VERSION`. -/
def CACHE_VERSION : String := "2.0.0"

/-- Errors `PluginSerializer.load_plugins` can raise
(`CacheCorruptedError`, `CacheVersionError`, and the `AttributeError`
of calling `.get`/`.items()` on a non-mapping, which propagates). -/
inductive CacheLoadError where
  | corrupted (msg : String) : CacheLoadError
  | versionError (expected : String) (got : PyV) : CacheLoadError

/-- The per-record loop of `load_plugins` (serialization.py lines
221-233): skip non-dict entries, deserialize the rest, drop entries
`dict_to_plugin` rejects; a non-mapping payload raises
(`.items()` on a non-dict). -/
def parse_plugins_dict (pl : PyV) : Except CacheLoadError (List (String × PluginInfo)) :=
  match pl with
  | .pdict ps =>
      .ok (ps.filterMap (fun kv =>
        match kv.2 with
        | .pdict _ => (dict_to_plugin kv.2).map (fun p => (kv.1, p))
        | _ => none))
  | _ => .error (.corrupted "plugins data is not a mapping")

/-- `PluginSerializer.load_plugins` (serialization.py lines 181-235):
a missing file gives the empty catalog; invalid JSON raises
`CacheCorruptedError`; the new format (keys `metadata` and `plugins`)
reads `metadata.get("version", "1.0.0")` and raises
`CacheVersionError` whenever it differs from `CACHE_VERSION` (a
non-string version object also differs); anything else is read as the
legacy format, a direct plugin dict. -/
def load_plugins (f : JsonFile) : Except CacheLoadError (List (String × PluginInfo)) :=
  match f with
  | .missing => .ok []
  | .corrupt => .error (.corrupted "JSON decode error")
  | .content d =>
      match d with
      | .pdict fs =>
          if dictHas fs "metadata" && dictHas fs "plugins" then
            match dictGet fs "metadata" with
            | some (.pdict ms) =>
                let cache_version := (dictGet ms "version").getD (.pstr "1.0.0")
                match cache_version with
                | .pstr v =>
                    if v = CACHE_VERSION then
                      parse_plugins_dict ((dictGet fs "plugins").getD (.pdict []))
                    else .error (.versionError CACHE_VERSION (.pstr v))
                | other => .error (.versionError CACHE_VERSION other)
            | _ => .error (.corrupted "metadata is not a mapping")
          else parse_plugins_dict d
      | other => parse_plugins_dict other

/-- The on-disk state of the SQLite catalog the backend reads: the
`cache_meta` key-value table and, per plugin id, the JSON `data`
column (`none` models a blob `json.loads` rejects, whose row the
loader skips). -/
structure SqliteState where
  cache_meta : List (String × String)
  plugins : List (String × Option PyV)

/-- `SQLiteCacheBackend.load` (sqlite_backend.py lines 102-125): read
every row of the `plugins` table, parse the `data` blob, deserialize
with `dict_to_plugin` and store the outcome (which may be `None`)
under the row's id. The function never consults `cache_meta`: no
version is checked on this path. -/
def sqlite_load (st : SqliteState) : List (String × Option PluginInfo) :=
  st.plugins.filterMap (fun kv => kv.2.map (fun d => (kv.1, dict_to_plugin d)))

/-- A stored catalog whose recorded `cache_meta` version (`"0.9"`)
differs from `CACHE_VERSION`, holding one valid record. -/
def mismatchedDb : SqliteState :=
  ⟨[("version", "0.9")], [("vst3/TestPlugin", some (plugin_to_dict samplePlugin))]⟩

/-- One row of the SQLite `plugins` table (schema at sqlite_backend.py
lines 40-51). -/
structure DbRow where
  name : String
  path : String
  plugin_type : String
  manufacturer : Option String
  parameter_count : Nat
  data : PyV
  file_mtime : Rat
  created_at : Rat
  updated_at : Rat

/-- `SQLiteCacheBackend._insert_plugin` (lines 269-289): append a row
built from the record; `file_mtime` is the file's mtime or 0 when the
path does not exist (`mtimeOf` models the filesystem). -/
def insert_plugin (now : Rat) (mtimeOf : String → Option Rat)
    (tbl : List (String × DbRow)) (plugin_id : String) (p : PluginInfo) :
    List (String × DbRow) :=
  tbl ++ [(plugin_id,
    { name := p.name, path := p.path, plugin_type := p.plugin_type,
      manufacturer := p.manufacturer, parameter_count := p.parameters.length,
      data := plugin_to_dict p, file_mtime := (mtimeOf p.path).getD 0,
      created_at := now, updated_at := now })]

/-- `SQLiteCacheBackend._update_plugin` (lines 291-310): rewrite the
row with the given id in place, keeping `created_at`. -/
def update_plugin (now : Rat) (mtimeOf : String → Option Rat)
    (tbl : List (String × DbRow)) (plugin_id : String) (p : PluginInfo) :
    List (String × DbRow) :=
  tbl.map (fun kv =>
    if kv.1 = plugin_id then
      (kv.1, { kv.2 with
        name := p.name, path := p.path, plugin_type := p.plugin_type,
        manufacturer := p.manufacturer, parameter_count := p.parameters.length,
        data := plugin_to_dict p, file_mtime := (mtimeOf p.path).getD 0,
        updated_at := now })
    else kv)

/-- `SQLiteCacheBackend.save` (lines 127-142): `DELETE FROM plugins`
— the fold starts from the empty table — then insert every record of
the batch. -/
def sqlite_save (now : Rat) (mtimeOf : String → Option Rat)
    (plugins : List (String × PluginInfo)) (_tbl : List (String × DbRow)) :
    List (String × DbRow) :=
  plugins.foldl (fun acc kv => insert_plugin now mtimeOf acc kv.1 kv.2) []

/-- `SQLiteCacheBackend.update` (lines 144-162): update the row in
place when the id exists, else insert it. -/
def sqlite_update (now : Rat) (mtimeOf : String → Option Rat) (plugin_id : String)
    (p : PluginInfo) (tbl : List (String × DbRow)) : List (String × DbRow) :=
  if (lookupKey tbl plugin_id).isSome then update_plugin now mtimeOf tbl plugin_id p
  else insert_plugin now mtimeOf tbl plugin_id p

/-- A minimal record for concrete catalog states. -/
def miniPlugin (i nm : String) : PluginInfo :=
  ⟨i, nm, "/p/" ++ nm ++ ".vst3", nm ++ ".vst3", "vst3", [], none, none⟩

/-- A catalog table holding the single pre-existing record `vst3/a`. -/
def c9Table : List (String × DbRow) :=
  insert_plugin 0 (fun _ => none) [] "vst3/a" (miniPlugin "vst3/a" "a")

-- ===== THEOREMS =====

theorem serialized_param_valid (p : PluginParameter) (h : is_parameter_value p.value = true) :
    is_serialized_parameter (parameter_to_dict p) = true := by
  obtain ⟨n, v⟩ := p
  cases v <;> first | rfl | exact Bool.noConfusion h

theorem param_roundtrip (p : PluginParameter) (h : is_parameter_value p.value = true) :
    dict_to_parameter (parameter_to_dict p) = some p := by
  obtain ⟨n, v⟩ := p
  cases v <;> first | rfl | exact Bool.noConfusion h

theorem serialized_params_all (params : List (String × PluginParameter))
    (hp : ∀ kv ∈ params, is_parameter_value kv.2.value = true) :
    (params.map (fun kv => (kv.1, parameter_to_dict kv.2))).all
      (fun kv => is_serialized_parameter kv.2) = true := by
  induction params with
  | nil => rfl
  | cons hd tl ih =>
      simp only [List.map_cons, List.all_cons, Bool.and_eq_true]
      exact ⟨serialized_param_valid hd.2 (hp hd (List.mem_cons_self hd tl)),
             ih (fun kv hkv => hp kv (List.mem_cons_of_mem hd hkv))⟩

theorem params_filterMap_roundtrip (params : List (String × PluginParameter))
    (hp : ∀ kv ∈ params, is_parameter_value kv.2.value = true) :
    (params.map (fun kv => (kv.1, parameter_to_dict kv.2))).filterMap
      (fun kv => (dict_to_parameter kv.2).map (fun q => (kv.1, q))) = params := by
  induction params with
  | nil => rfl
  | cons hd tl ih =>
      simp only [List.map_cons, List.filterMap_cons]
      rw [param_roundtrip hd.2 (hp hd (List.mem_cons_self hd tl))]
      simp only [Option.map_some']
      rw [ih (fun kv hkv => hp kv (List.mem_cons_of_mem hd hkv))]

/-- C4. Serialization round trip: for a well-formed record (every
parameter value a float, bool, or string), `dict_to_plugin` after
`plugin_to_dict` returns the original record — all parameters, the
manufacturer, and the `name_in_file` field preserved. -/
theorem C4_serialize_roundtrip (p : PluginInfo)
    (hp : ∀ kv ∈ p.parameters, is_parameter_value kv.2.value = true) :
    dict_to_plugin (plugin_to_dict p) = some p := by
  obtain ⟨i, nm, pa, fn, pt, params, manu, nif⟩ := p
  have hall := serialized_params_all params hp
  have hfm := params_filterMap_roundtrip params hp
  rcases manu with _ | m <;> rcases nif with _ | q
  · have hser : is_serialized_plugin
        (plugin_to_dict ⟨i, nm, pa, fn, pt, params, none, none⟩) = true := by
      show ((params.map (fun kv => (kv.1, parameter_to_dict kv.2))).all
          (fun kv => is_serialized_parameter kv.2) && true) && true = true
      rw [hall]; rfl
    unfold dict_to_plugin
    rw [hser]
    simp only [if_pos]
    show (some (⟨i, nm, pa, fn, pt,
        (params.map (fun kv => (kv.1, parameter_to_dict kv.2))).filterMap
          (fun kv => (dict_to_parameter kv.2).map (fun p => (kv.1, p))),
        none, none⟩ : PluginInfo) : Option PluginInfo) =
      some (⟨i, nm, pa, fn, pt, params, none, none⟩ : PluginInfo)
    rw [hfm]
  · have hser : is_serialized_plugin
        (plugin_to_dict ⟨i, nm, pa, fn, pt, params, none, some q⟩) = true := by
      show ((params.map (fun kv => (kv.1, parameter_to_dict kv.2))).all
          (fun kv => is_serialized_parameter kv.2) && true) && true = true
      rw [hall]; rfl
    unfold dict_to_plugin
    rw [hser]
    simp only [if_pos]
    show (some (⟨i, nm, pa, fn, pt,
        (params.map (fun kv => (kv.1, parameter_to_dict kv.2))).filterMap
          (fun kv => (dict_to_parameter kv.2).map (fun p => (kv.1, p))),
        none, some q⟩ : PluginInfo) : Option PluginInfo) =
      some (⟨i, nm, pa, fn, pt, params, none, some q⟩ : PluginInfo)
    rw [hfm]
  · have hser : is_serialized_plugin
        (plugin_to_dict ⟨i, nm, pa, fn, pt, params, some m, none⟩) = true := by
      show ((params.map (fun kv => (kv.1, parameter_to_dict kv.2))).all
          (fun kv => is_serialized_parameter kv.2) && true) && true = true
      rw [hall]; rfl
    unfold dict_to_plugin
    rw [hser]
    simp only [if_pos]
    show (some (⟨i, nm, pa, fn, pt,
        (params.map (fun kv => (kv.1, parameter_to_dict kv.2))).filterMap
          (fun kv => (dict_to_parameter kv.2).map (fun p => (kv.1, p))),
        some m, none⟩ : PluginInfo) : Option PluginInfo) =
      some (⟨i, nm, pa, fn, pt, params, some m, none⟩ : PluginInfo)
    rw [hfm]
  · have hser : is_serialized_plugin
        (plugin_to_dict ⟨i, nm, pa, fn, pt, params, some m, some q⟩) = true := by
      show ((params.map (fun kv => (kv.1, parameter_to_dict kv.2))).all
          (fun kv => is_serialized_parameter kv.2) && true) && true = true
      rw [hall]; rfl
    unfold dict_to_plugin
    rw [hser]
    simp only [if_pos]
    show (some (⟨i, nm, pa, fn, pt,
        (params.map (fun kv => (kv.1, parameter_to_dict kv.2))).filterMap
          (fun kv => (dict_to_parameter kv.2).map (fun p => (kv.1, p))),
        some m, some q⟩ : PluginInfo) : Option PluginInfo) =
      some (⟨i, nm, pa, fn, pt, params, some m, some q⟩ : PluginInfo)
    rw [hfm]

/-- C4 witness: the round trip evaluated on a concrete record with a
float and a bool parameter, a manufacturer and a `name_in_file`. -/
theorem C4_serialize_roundtrip_witness :
    dict_to_plugin (plugin_to_dict samplePlugin) = some samplePlugin :=
  C4_serialize_roundtrip samplePlugin (by decide)

/-- C3 counterexample: the isolated worker (`scan_single.py` lines
80-85) does not apply the float-first coercion. For the loader value
`"3"` (a Python `str`), `float(str(v))` succeeds, so by the claim the
stored value must be the float `3`; the worker stores the string `"3"`
unchanged. A loader value `7` (a Python `int`) is stored as an `int`,
which is not one of float / bool / string. -/
theorem C3_counterexample :
    pyFloatParse "3" = some 3 ∧
    scanSingleParamValue (LoaderVal.lstr "3") = PyV.pstr "3" ∧
    PyV.pstr "3" ≠ PyV.pfloat 3 ∧
    scanSingleParamValue (LoaderVal.lint 7) = PyV.pint 7 :=
  ⟨by decide, rfl, fun h => PyV.noConfusion h, rfl⟩

/-- C3 (amended). `utils.from_pb_param` coerces `str(v)` in the claimed
preference order — float first, then `"true"`/`"false"` (lowercased) to
bool, otherwise the string itself — and its result is by construction
exactly one of float, bool or string; the isolated worker instead
stores loader values that are already `bool`/`int`/`float`/`str`
unchanged (so `int` values and numeric strings are not coerced) and
applies `str(...)` only to other objects. -/
theorem C3_coercion_order (drep : String) :
    (∀ q, pyFloatParse drep = some q → from_pb_param drep = .f q) ∧
    (pyFloatParse drep = none → strLower drep = "true" → from_pb_param drep = .b true) ∧
    (pyFloatParse drep = none → strLower drep = "false" → from_pb_param drep = .b false) ∧
    (pyFloatParse drep = none → strLower drep ≠ "true" → strLower drep ≠ "false" →
      from_pb_param drep = .s drep) ∧
    (∀ b, scanSingleParamValue (.lbool b) = .pbool b) ∧
    (∀ n, scanSingleParamValue (.lint n) = .pint n) ∧
    (∀ q, scanSingleParamValue (.lfloat q) = .pfloat q) ∧
    (∀ s, scanSingleParamValue (.lstr s) = .pstr s) ∧
    (∀ r, scanSingleParamValue (.lother r) = .pstr r) := by
  refine ⟨?_, ?_, ?_, ?_, fun _ => rfl, fun _ => rfl, fun _ => rfl, fun _ => rfl, fun _ => rfl⟩
  · intro q h
    simp [from_pb_param, h]
  · intro h ht
    simp [from_pb_param, h, ht]
  · intro h hf
    simp [from_pb_param, h, hf]
  · intro h h1 h2
    simp [from_pb_param, h, h1, h2]

/-- C3 witness: the coercion chain evaluated at `"True"` (a non-float
that lowercases to `"true"`) and at `"hello"` (neither float nor
boolean text). -/
theorem C3_coercion_order_witness :
    from_pb_param "True" = .b true ∧ from_pb_param "hello" = .s "hello" :=
  ⟨(C3_coercion_order "True").2.1 (by decide) (by decide),
   (C3_coercion_order "hello").2.2.2.1 (by decide) (by decide) (by decide)⟩

/-- C10. Ignore-set persistence round trip: saving a set of ignore keys
as a sorted JSON array and loading it back (keeping the string
elements) returns exactly the original set — no element lost or
added. -/
theorem C10_ignores_roundtrip (s : Finset String) :
    load_ignores (save_ignores s) = s := by
  simp only [load_ignores, save_ignores, load_json_file_other, List.filterMap_map]
  have hcomp : (fun x => match x with | PyV.pstr s => some s | _ => none) ∘ PyV.pstr =
      fun s : String => some s := rfl
  rw [hcomp]
  simp [Finset.sort_toFinset]

/-- C5. Probe filtering and missing-resource behaviour: every emitted
VST3 or AU candidate has its `"<type>/<stem>"` key outside the ignore
set; folders that do not exist contribute no candidates; a missing (or
failing) `auval` tool yields an empty AU list without error. -/
theorem C5_probe_filtering :
    (∀ (folders : List Vst3Folder) (ignores : Finset String) (c : String),
      c ∈ find_vst3_plugins folders ignores → ("vst3/" ++ pathStem c) ∉ ignores) ∧
    (∀ (folders : List Vst3Folder) (ignores : Finset String),
      (∀ f ∈ folders, f.present = false) → find_vst3_plugins folders ignores = []) ∧
    (∀ (ml : String → Option AufxMatch) (rp : String → String) (ignores : Finset String),
      find_aufx_plugins ml rp .absent ignores = [] ∧
      find_aufx_plugins ml rp .failed ignores = []) ∧
    (∀ (ml : String → Option AufxMatch) (rp : String → String) (run : AuvalRun)
      (ignores : Finset String) (t : String × String × String),
      t ∈ find_aufx_plugins ml rp run ignores → ("aufx/" ++ pathStem t.1) ∉ ignores) := by
  refine ⟨?_, ?_, fun _ _ _ => ⟨rfl, rfl⟩, ?_⟩
  · intro folders ignores c hc
    simp only [find_vst3_plugins, get_vst3_folders, List.mem_flatMap] at hc
    obtain ⟨f, _, hc⟩ := hc
    simp only [List.mem_filterMap, List.mem_filter] at hc
    obtain ⟨e, _, hce⟩ := hc
    by_cases hkey : ("vst3/" ++ pathStem (f.path ++ "/" ++ e)) ∈ ignores
    · simp [hkey] at hce
    · rw [if_neg hkey] at hce
      rw [← Option.some_inj.mp hce]
      exact hkey
  · intro folders ignores h
    unfold find_vst3_plugins get_vst3_folders
    rw [List.filter_eq_nil_iff.mpr (fun a ha => by simp [h a ha])]
    rfl
  · intro ml rp run ignores t ht
    simp only [find_aufx_plugins, List.mem_filterMap] at ht
    obtain ⟨line, _, hmt⟩ := ht
    cases hml : ml line with
    | none => rw [hml] at hmt; exact Option.noConfusion hmt
    | some m =>
        rw [hml] at hmt
        replace hmt : (if ("aufx/" ++ pathStem (rp m.pluginUrl)) ∈ ignores then none
            else some (rp m.pluginUrl, m.vendorName, m.pluginName)) = some t := hmt
        by_cases hkey : ("aufx/" ++ pathStem (rp m.pluginUrl)) ∈ ignores
        · simp [hkey] at hmt
        · rw [if_neg hkey] at hmt
          have := Option.some_inj.mp hmt
          rw [← this]
          exact hkey

/-- C5 witness: a present folder with `Good.vst3` and an ignore set
containing only `vst3/Bad` emits the candidate, whose key is outside
the ignore set; an absent folder emits nothing; a missing `auval`
yields no AU candidates. -/
theorem C5_probe_filtering_witness :
    ("vst3/" ++ pathStem "/L/Good.vst3") ∉ ({"vst3/Bad"} : Finset String) ∧
    find_vst3_plugins [⟨"/L", false, ["A.vst3"]⟩] {"vst3/Bad"} = [] ∧
    find_aufx_plugins (fun _ => none) id .absent {"vst3/Bad"} = [] :=
  ⟨C5_probe_filtering.1 [⟨"/L", true, ["Good.vst3", "Bad.vst3"]⟩] {"vst3/Bad"}
      "/L/Good.vst3" (by decide),
   C5_probe_filtering.2.1 [⟨"/L", false, ["A.vst3"]⟩] {"vst3/Bad"}
      (by intro f hf; simp at hf; rw [hf]),
   (C5_probe_filtering.2.2.1 (fun _ => none) id {"vst3/Bad"}).1⟩

theorem isSome_lookupKey_iff_mem {α : Type} (l : List (String × α)) (k : String) :
    (lookupKey l k).isSome = true ↔ k ∈ l.map Prod.fst := by
  induction l with
  | nil => simp [lookupKey]
  | cons hd tl ih =>
      by_cases h : hd.1 = k
      · simp [lookupKey, h]
      · simp only [lookupKey, if_neg h, List.map_cons, List.mem_cons, ih]
        constructor
        · intro hk; exact Or.inr hk
        · rintro (hk | hk)
          · exact absurd hk.symm h
          · exact hk

theorem keys_setKey {α : Type} (l : List (String × α)) (k : String) (v : α) :
    (setKey l k v).map Prod.fst =
      if (lookupKey l k).isSome then l.map Prod.fst else l.map Prod.fst ++ [k] := by
  unfold setKey
  split
  · rw [List.map_map]
    apply List.map_congr_left
    intro kv _
    by_cases hk : kv.1 = k <;> simp [hk]
  · simp

theorem mem_keys_setKey_self {α : Type} (l : List (String × α)) (k : String) (v : α) :
    k ∈ (setKey l k v).map Prod.fst := by
  rw [keys_setKey]
  split
  · exact (isSome_lookupKey_iff_mem l k).mp (by assumption)
  · simp

theorem mem_keys_setKey_mono {α : Type} (l : List (String × α)) (k k' : String) (v : α)
    (h : k' ∈ l.map Prod.fst) : k' ∈ (setKey l k v).map Prod.fst := by
  rw [keys_setKey]
  split
  · exact h
  · simp [h]

theorem scan_step_counts (st : ScanState) (t : ScanTask × FutureOutcome) :
    (scan_step st t).completed + (scan_step st t).failed = st.completed + st.failed + 1 := by
  obtain ⟨tk, o⟩ := t
  unfold scan_step
  cases o with
  | res r => dsimp only; split <;> split <;> (dsimp only; omega)
  | raised e => dsimp only; split <;> (dsimp only; omega)

theorem scan_step_failed_mono (st : ScanState) (t : ScanTask × FutureOutcome) (k : String)
    (h : k ∈ st.failed_plugins.map Prod.fst) :
    k ∈ (scan_step st t).failed_plugins.map Prod.fst := by
  obtain ⟨tk, o⟩ := t
  unfold scan_step
  cases o with
  | res r =>
      dsimp only
      split <;> split <;> first | exact h | exact mem_keys_setKey_mono _ _ _ _ h
  | raised e =>
      dsimp only
      split <;> exact mem_keys_setKey_mono _ _ _ _ h

theorem scan_step_failure_recorded (st : ScanState) (t : ScanTask × FutureOutcome)
    (h : t.2.isFailure = true) :
    t.1.name ∈ (scan_step st t).failed_plugins.map Prod.fst := by
  obtain ⟨tk, o⟩ := t
  unfold scan_step
  cases o with
  | res r =>
      have hs : r.success = false := by
        simpa [FutureOutcome.isFailure] using h
      dsimp only
      rw [hs]
      simp only [Bool.false_eq_true, if_false]
      split <;> exact mem_keys_setKey_self _ _ _
  | raised e =>
      dsimp only
      split <;> exact mem_keys_setKey_self _ _ _

theorem foldl_scan_counts (tasks : List (ScanTask × FutureOutcome)) (st : ScanState) :
    (tasks.foldl scan_step st).completed + (tasks.foldl scan_step st).failed =
      st.completed + st.failed + tasks.length := by
  induction tasks generalizing st with
  | nil => simp
  | cons hd tl ih =>
      simp only [List.foldl_cons, List.length_cons]
      rw [ih (scan_step st hd), scan_step_counts]
      omega

theorem foldl_scan_failed_mono (tasks : List (ScanTask × FutureOutcome)) (st : ScanState)
    (k : String) (h : k ∈ st.failed_plugins.map Prod.fst) :
    k ∈ (tasks.foldl scan_step st).failed_plugins.map Prod.fst := by
  induction tasks generalizing st with
  | nil => exact h
  | cons hd tl ih => exact ih _ (scan_step_failed_mono st hd k h)

theorem foldl_scan_failure_recorded (tasks : List (ScanTask × FutureOutcome)) (st : ScanState)
    (t : ScanTask × FutureOutcome) (ht : t ∈ tasks) (hf : t.2.isFailure = true) :
    t.1.name ∈ (tasks.foldl scan_step st).failed_plugins.map Prod.fst := by
  induction tasks generalizing st with
  | nil => cases ht
  | cons hd tl ih =>
      rcases List.mem_cons.mp ht with he | he
      · subst he
        exact foldl_scan_failed_mono tl _ _ (scan_step_failure_recorded st t hf)
      · exact ih (scan_step st hd) he

/-- C6. Per-plugin error isolation: the completion loop processes every
task exactly once (the two counters sum to the task count), and every
task whose outcome is a failure result, a timeout surfaced as a failure
result, or a raised exception has a record under its name in
`failed_plugins` when the loop finishes; no per-plugin error aborts the
scan. -/
theorem C6_per_plugin_error_isolation (plugins0 failed0 : List (String × PyV))
    (tasks : List (ScanTask × FutureOutcome)) :
    ((scan_plugins_parallel plugins0 failed0 tasks).completed +
      (scan_plugins_parallel plugins0 failed0 tasks).failed = tasks.length) ∧
    (∀ t ∈ tasks, t.2.isFailure = true →
      (lookupKey (scan_plugins_parallel plugins0 failed0 tasks).failed_plugins
        t.1.name).isSome = true) := by
  unfold scan_plugins_parallel
  by_cases he : tasks.isEmpty
  · rw [if_pos he]
    have hn : tasks = [] := List.isEmpty_iff.mp he
    subst hn
    exact ⟨rfl, by intro t ht; cases ht⟩
  · rw [if_neg he]
    refine ⟨?_, ?_⟩
    · have hc := foldl_scan_counts tasks ⟨plugins0, failed0, 0, 0, []⟩
      simpa using hc
    · intro t ht hf
      rw [isSome_lookupKey_iff_mem]
      exact foldl_scan_failure_recorded tasks _ t ht hf

/-- C6 witness: three tasks — a success, a failure result and a raised
exception — are all processed; both failing tasks end up recorded in
`failed_plugins`. -/
theorem C6_per_plugin_error_isolation_witness :
    ((scan_plugins_parallel [] [] c6Tasks).completed +
      (scan_plugins_parallel [] [] c6Tasks).failed = 3) ∧
    (lookupKey (scan_plugins_parallel [] [] c6Tasks).failed_plugins "B").isSome = true ∧
    (lookupKey (scan_plugins_parallel [] [] c6Tasks).failed_plugins "C").isSome = true :=
  ⟨(C6_per_plugin_error_isolation [] [] c6Tasks).1,
   (C6_per_plugin_error_isolation [] [] c6Tasks).2
     (⟨"/p/b.vst3", "B", "vst3", none⟩, .res ⟨false, [], none, none, some "boom"⟩)
     (List.mem_cons_of_mem _ (List.mem_cons_self _ _)) rfl,
   (C6_per_plugin_error_isolation [] [] c6Tasks).2
     (⟨"/p/c.vst3", "C", "vst3", none⟩, .raised "crash")
     (List.mem_cons_of_mem _ (List.mem_cons_of_mem _ (List.mem_cons_self _ _))) rfl⟩

set_option maxRecDepth 10000 in
/-- C1, the shipped loop evaluated at a failing input: scanning 20
plugins whose workers all succeed, `save_plugins` persists a snapshot
of only the first 10 records (the periodic save at
`(completed + failed) % 10 == 0`, scanner_isolated.py lines 335-337)
while 10 tasks are still unprocessed; the persisted snapshot sizes are
10, 20 and the final save 20. The shipped scanner maintains no journal
at all, so the claimed pair of observable states cannot hold. -/
theorem C1_partial_catalog_write :
    ((scan_plugins_parallel [] [] c1Tasks).saves.map List.length) = [10, 20, 20] ∧
    (scan_plugins_parallel [] [] c1Tasks).plugins.length = 20 ∧
    c1Tasks.length = 20 :=
  ⟨by decide, by decide, by decide⟩

theorem lookupKey_map_set_self {α : Type} (l : List (String × α)) (k : String) (v : α)
    (h : (lookupKey l k).isSome = true) :
    lookupKey (l.map (fun kv => if kv.1 = k then (k, v) else kv)) k = some v := by
  induction l with
  | nil => simp [lookupKey] at h
  | cons hd tl ih =>
      simp only [List.map_cons]
      by_cases hk : hd.1 = k
      · rw [if_pos hk]
        simp [lookupKey]
      · rw [if_neg hk]
        simp only [lookupKey, if_neg hk] at h ⊢
        exact ih h

theorem lookupKey_append_self {α : Type} (l : List (String × α)) (k : String) (v : α)
    (h : (lookupKey l k).isSome = false) :
    lookupKey (l ++ [(k, v)]) k = some v := by
  induction l with
  | nil => simp [lookupKey]
  | cons hd tl ih =>
      by_cases hk : hd.1 = k
      · simp [lookupKey, hk] at h
      · simp only [List.cons_append, lookupKey, if_neg hk] at h ⊢
        exact ih h

theorem lookupKey_setKey_self {α : Type} (l : List (String × α)) (k : String) (v : α) :
    lookupKey (setKey l k v) k = some v := by
  unfold setKey
  split
  · exact lookupKey_map_set_self _ _ _ (by assumption)
  · rename_i h
    exact lookupKey_append_self _ _ _ (by simpa using h)

/-- C2. Worker error handling and exit status: for every invocation of
the single-plugin worker, if the loader raises then the worker writes
`status=failed` with `{"error": str(e)}` into the path's journal row,
and in every case — success or failure — it closes the journal and
exits with status 0. (`ScanJournal` itself is modelled from the spec,
its implementation being absent from src.) -/
theorem C2_worker_error_handling (plugin_path plugin_name plugin_type : String)
    (outcome : LoadOutcome) (journal : ScanJournal) :
    ((scan_single_plugin plugin_path plugin_name plugin_type outcome journal).1.closed = true) ∧
    ((scan_single_plugin plugin_path plugin_name plugin_type outcome journal).2 = 0) ∧
    (∀ e, outcome = .err e →
      lookupKey (scan_single_plugin plugin_path plugin_name plugin_type outcome journal).1.rows
        plugin_path = some ⟨JStatus.failed, some (.pdict [("error", .pstr e)])⟩) := by
  refine ⟨?_, ?_, ?_⟩
  · cases outcome <;> rfl
  · cases outcome <;> rfl
  · intro e he
    subst he
    exact lookupKey_setKey_self _ _ _

/-- C2 witness: a loader that raises `boom` on `/p/x.vst3` leaves a
closed journal whose row for the path is `failed` with the message,
and the worker exits 0. -/
theorem C2_worker_error_handling_witness :
    ((scan_single_plugin "/p/x.vst3" "X" "vst3" (.err "boom") ⟨[], false⟩).1.closed = true) ∧
    ((scan_single_plugin "/p/x.vst3" "X" "vst3" (.err "boom") ⟨[], false⟩).2 = 0) ∧
    (lookupKey (scan_single_plugin "/p/x.vst3" "X" "vst3" (.err "boom") ⟨[], false⟩).1.rows
      "/p/x.vst3" = some ⟨JStatus.failed, some (.pdict [("error", .pstr "boom")])⟩) :=
  ⟨(C2_worker_error_handling "/p/x.vst3" "X" "vst3" (.err "boom") ⟨[], false⟩).1,
   (C2_worker_error_handling "/p/x.vst3" "X" "vst3" (.err "boom") ⟨[], false⟩).2.1,
   (C2_worker_error_handling "/p/x.vst3" "X" "vst3" (.err "boom") ⟨[], false⟩).2.2 "boom" rfl⟩

/-- C8. Catalog key shape: every record the worker writes on success
carries `id = "<type>/<file-stem>"`, the commit step stores each
success record under its `id` (commit modelled from the spec, its
implementation being absent from src), and scanning `/p/a.vst3`,
`/p/b.vst3`, `/p/c.vst3` yields catalog keys `vst3/a`, `vst3/b`,
`vst3/c`. -/
theorem C8_catalog_key_shape :
    (∀ (plugin_path plugin_name plugin_type : String) (lp : LoadedPlugin) (j : ScanJournal),
      ∃ r, lookupKey
          (scan_single_plugin plugin_path plugin_name plugin_type (.ok lp) j).1.rows
          plugin_path = some ⟨JStatus.success, some r⟩ ∧
        record_id r = some (plugin_type ++ "/" ++ pathStem plugin_path)) ∧
    ((commit_successes c8Journal.rows []).map Prod.fst = ["vst3/a", "vst3/b", "vst3/c"]) := by
  refine ⟨?_, by decide⟩
  intro plugin_path plugin_name plugin_type lp j
  exact ⟨_, lookupKey_setKey_self _ _ _, rfl⟩

/-- C7 counterexample: a SQLite catalog whose `cache_meta` records
version `0.9` — different from `CACHE_VERSION` — is loaded by
`SQLiteCacheBackend.load` without any error: the reader returns the
stored record instead of refusing, because `load` never consults
`cache_meta`. -/
theorem C7_counterexample :
    lookupKey mismatchedDb.cache_meta "version" = some "0.9" ∧
    "0.9" ≠ CACHE_VERSION ∧
    sqlite_load mismatchedDb = [("vst3/TestPlugin", some samplePlugin)] :=
  ⟨rfl, by decide, rfl⟩

/-- C7 (amended). Only the JSON-cache reader enforces the version
gate: `PluginSerializer.load_plugins` on a new-format cache whose
metadata version is a string different from `CACHE_VERSION` raises
`CacheVersionError` instead of returning records; the SQLite backend's
`load` performs no version check. -/
theorem C7_serializer_version_gate (fs ms : List (String × PyV)) (pl : PyV) (v : String)
    (hm : dictGet fs "metadata" = some (.pdict ms))
    (hp : dictGet fs "plugins" = some pl)
    (hv : dictGet ms "version" = some (.pstr v))
    (hne : v ≠ CACHE_VERSION) :
    load_plugins (.content (.pdict fs)) = .error (.versionError CACHE_VERSION (.pstr v)) := by
  unfold load_plugins
  have h1 : dictHas fs "metadata" = true := by simp [dictHas, hm]
  have h2 : dictHas fs "plugins" = true := by simp [dictHas, hp]
  simp only [h1, h2, Bool.and_self, if_true, hm, hv, Option.getD_some]
  rw [if_neg hne]

/-- C7 witness: a cache recording version `1.0` is refused by the
serializer with `CacheVersionError`. -/
theorem C7_serializer_version_gate_witness :
    load_plugins (.content (.pdict [("metadata", PyV.pdict [("version", PyV.pstr "1.0")]),
      ("plugins", PyV.pdict [])])) =
      .error (.versionError CACHE_VERSION (.pstr "1.0")) :=
  C7_serializer_version_gate
    [("metadata", PyV.pdict [("version", PyV.pstr "1.0")]), ("plugins", PyV.pdict [])]
    [("version", PyV.pstr "1.0")] (PyV.pdict []) "1.0" rfl rfl rfl (by decide)

/-- C9 counterexample: committing the batch `{vst3/b}` through
`SQLiteCacheBackend.save` deletes the pre-existing record `vst3/a`
(`save` issues `DELETE FROM plugins` before inserting), so `save` is a
replacement of the whole store, not an upsert of the batch. -/
theorem C9_counterexample :
    (lookupKey c9Table "vst3/a").isSome = true ∧
    lookupKey (sqlite_save 1 (fun _ => none) [("vst3/b", miniPlugin "vst3/b" "b")] c9Table)
      "vst3/a" = none :=
  ⟨rfl, rfl⟩

theorem lookupKey_update_plugin (now : Rat) (mtimeOf : String → Option Rat)
    (tbl : List (String × DbRow)) (plugin_id id' : String) (p : PluginInfo)
    (hne : id' ≠ plugin_id) :
    lookupKey (update_plugin now mtimeOf tbl plugin_id p) id' = lookupKey tbl id' := by
  unfold update_plugin
  induction tbl with
  | nil => rfl
  | cons hd tl ih =>
      simp only [List.map_cons]
      by_cases hk : hd.1 = plugin_id
      · rw [if_pos hk]
        have hni : hd.1 ≠ id' := fun h => hne (h ▸ hk)
        simp only [lookupKey, if_neg hni]
        exact ih
      · rw [if_neg hk]
        by_cases hi : hd.1 = id'
        · simp [lookupKey, hi]
        · simp only [lookupKey, if_neg hi]
          exact ih

theorem lookupKey_append_other {α : Type} (l : List (String × α)) (k id' : String) (v : α)
    (hne : id' ≠ k) : lookupKey (l ++ [(k, v)]) id' = lookupKey l id' := by
  induction l with
  | nil =>
      show (if k = id' then some v else lookupKey [] id') =
        lookupKey ([] : List (String × α)) id'
      exact if_neg (fun h => hne h.symm)
  | cons hd tl ih =>
      by_cases hi : hd.1 = id' <;> simp [lookupKey, hi, ih]

/-- C9 (amended). The single-record `SQLiteCacheBackend.update` is an
upsert that satisfies the frame condition: after updating (or
inserting) `plugin_id`, every record with a different id is unchanged;
the batch `save`, by contrast, replaces the whole store (see the C9
counterexample). -/
theorem C9_update_frame (now : Rat) (mtimeOf : String → Option Rat) (plugin_id : String)
    (p : PluginInfo) (tbl : List (String × DbRow)) (id' : String) (hne : id' ≠ plugin_id) :
    lookupKey (sqlite_update now mtimeOf plugin_id p tbl) id' = lookupKey tbl id' := by
  unfold sqlite_update
  split
  · exact lookupKey_update_plugin now mtimeOf tbl plugin_id id' p hne
  · unfold insert_plugin
    exact lookupKey_append_other _ _ _ _ hne

/-- C9 witness: upserting `vst3/b` leaves the stored `vst3/a`
unchanged. -/
theorem C9_update_frame_witness :
    lookupKey (sqlite_update 1 (fun _ => none) "vst3/b" (miniPlugin "vst3/b" "b") c9Table)
      "vst3/a" = lookupKey c9Table "vst3/a" :=
  C9_update_frame 1 (fun _ => none) "vst3/b" (miniPlugin "vst3/b" "b") c9Table "vst3/a"
    (by decide)

end Pluginary
